import Mathlib

/-!
Verification of `gormuuid` (exlibris-fed/gormuuid, src/uuid.go).

The repository embeds a 16-byte UUID primary-key field into GORM models.
It delegates UUID work to the `github.com/google/uuid` library.  We embed
both the library functions the code calls (namespace `uuid`) and the
repository code itself (namespace `gormuuid`).

Go byte slices are modelled as `List Nat` (each element a byte value),
Go's `(value, error)` return pairs as `α × Option GoError`, and Go error
values (which are compared by identity) as constructors of an inductive
type: `errorNoUUID` models the `errors.New` sentinel declared in
src/uuid.go line 28, and `invalidUUIDLength n` models the
`fmt.Errorf("invalid UUID (got %d bytes)", len(data))` error produced by
google/uuid's `UUID.UnmarshalBinary`.
-/

/-- Go error values relevant to this code, as distinct constructors
(Go sentinel errors are distinguished by identity). -/
inductive GoError where
  /-- `gormuuid.ErrorNoUUID = errors.New("UUID has not been created")` -/
  | errorNoUUID : GoError
  /-- google/uuid: `fmt.Errorf("invalid UUID (got %d bytes)", len(data))` -/
  | invalidUUIDLength (n : Nat) : GoError
deriving DecidableEq

namespace uuid

/-- google/uuid's `type UUID [16]byte`: a 16-byte array, modelled as the
list of its byte values (length 16 for every value the library builds). -/
structure UUID where
  data : List Nat
deriving DecidableEq

/-- google/uuid's `Nil` UUID: the zero value of `[16]byte`, all zeros. -/
def Nil : UUID := ⟨List.replicate 16 0⟩

/-- google/uuid `func (uuid *UUID) UnmarshalBinary(data []byte) error`:
if `len(data) != 16` it returns the invalid-length error and leaves the
receiver as it was; otherwise it copies `data` into the receiver.  The
resulting receiver state is returned alongside the error. -/
def UUID.UnmarshalBinary (u : UUID) (data : List Nat) : UUID × Option GoError :=
  if data.length ≠ 16 then (u, some (GoError.invalidUUIDLength data.length))
  else (⟨data⟩, none)

/-- google/uuid `func FromBytes(b []byte) (uuid UUID, err error)`:
`err = uuid.UnmarshalBinary(b); return uuid, err` where the local
`uuid` starts as the zero value. -/
def FromBytes (b : List Nat) : UUID × Option GoError :=
  Nil.UnmarshalBinary b

/-- google/uuid `func (uuid UUID) MarshalBinary() ([]byte, error)`:
`return uuid[:], nil` — it never fails. -/
def UUID.MarshalBinary (u : UUID) : List Nat × Option GoError :=
  (u.data, none)

/-- google/uuid `func New() UUID`, i.e. `Must(NewRandom())`, with the 16
random bytes read from the random source supplied explicitly (the
`io.ReadFull` call having succeeded).  Per `NewRandomFromReader`, byte 6
becomes `(b[6] & 0x0f) | 0x40` (version 4) and byte 8 becomes
`(b[8] & 0x3f) | 0x80` (RFC variant). -/
def New (r : List Nat) : UUID :=
  let b1 := r.set 6 (Nat.lor (Nat.land (r.getD 6 0) 0x0f) 0x40)
  let b2 := b1.set 8 (Nat.lor (Nat.land (b1.getD 8 0) 0x3f) 0x80)
  ⟨b2⟩

/-- One byte rendered as two lowercase hex characters; `Nat.digitChar`
agrees with Go's `encoding/hex` alphabet on 0..15. -/
def byteToHex (b : Nat) : List Char :=
  [Nat.digitChar (b / 16), Nat.digitChar (b % 16)]

/-- `hex.Encode` over a byte slice. -/
def encodeHexPart (bs : List Nat) : List Char :=
  List.flatten (bs.map byteToHex)

/-- google/uuid `func (uuid UUID) String() string`: the canonical
`xxxxxxxx-xxxx-xxxx-xxxx-xxxxxxxxxxxx` rendering, hex-encoding bytes
0..3, 4..5, 6..7, 8..9 and 10..15 separated by hyphens. -/
def UUID.String (u : UUID) : String :=
  let d := u.data
  String.mk (encodeHexPart (d.take 4) ++ '-' :: encodeHexPart ((d.drop 4).take 2)
    ++ '-' :: encodeHexPart ((d.drop 6).take 2)
    ++ '-' :: encodeHexPart ((d.drop 8).take 2)
    ++ '-' :: encodeHexPart (d.drop 10))

/-- The property "valid version-4 UUID with RFC variant bits": 16 bytes,
the high nibble of byte 6 is 4, and the top two bits of byte 8 are `10`. -/
def UUID.isV4Variant (u : UUID) : Prop :=
  u.data.length = 16 ∧ u.data.getD 6 0 / 16 = 4 ∧ u.data.getD 8 0 / 64 = 2

instance (u : UUID) : Decidable u.isV4Variant := by
  unfold UUID.isV4Variant; infer_instance

end uuid

namespace gormuuid

/-- src/uuid.go line 28: `ErrorNoUUID = errors.New("UUID has not been created")`. -/
def ErrorNoUUID : GoError := GoError.errorNoUUID

/-- src/uuid.go lines 32-34: `type UUID struct { ID []byte }`. -/
structure UUID where
  ID : List Nat
deriving DecidableEq

/-- src/uuid.go lines 37-49, `func (u *UUID) BeforeCreate() (err error)`,
with the outcome of the `uuid.New().MarshalBinary()` call passed in as
`gen`: if `len(u.ID) == 16` return with no error and no modification;
if the marshal step reported an error, return it with the field
unchanged; otherwise store the marshalled bytes in `u.ID`. -/
def UUID.beforeCreateWith (u : UUID) (gen : List Nat × Option GoError) :
    UUID × Option GoError :=
  if u.ID.length = 16 then (u, none)
  else
    match gen with
    | (_, some e) => (u, some e)
    | (b, none) => (⟨b⟩, none)

/-- src/uuid.go lines 37-49, `BeforeCreate`, composed with the actual
google/uuid calls; `r` is the 16-byte random input consumed by
`uuid.New()`. -/
def UUID.BeforeCreate (u : UUID) (r : List Nat) : UUID × Option GoError :=
  u.beforeCreateWith (uuid.New r).MarshalBinary

/-- The `UUID()` method with the receiver state threaded explicitly: the
body of src/uuid.go lines 60-62 contains no write to `u`, so the
receiver after the call is the receiver before it. -/
def UUID.uuidCall (u : UUID) : (uuid.UUID × Option GoError) × UUID :=
  (uuid.FromBytes u.ID, u)

/-- src/uuid.go lines 60-62, `func (u *UUID) UUID() (uuid.UUID, error)`:
`return uuid.FromBytes(u.ID)`. -/
def UUID.UUID (u : UUID) : (uuid.UUID) × Option GoError :=
  uuid.FromBytes u.ID

end gormuuid

/-! ## Helper lemmas -/

set_option maxRecDepth 4096 in
/-- For any byte, `(b & 0x0f) | 0x40` has high nibble 4. -/
theorem version_nibble_of_byte : ∀ x : Fin 256, Nat.lor (Nat.land x.val 15) 64 / 16 = 4 := by
  decide

set_option maxRecDepth 4096 in
/-- For any byte, `(b & 0x3f) | 0x80` has top two bits `10`. -/
theorem variant_bits_of_byte : ∀ x : Fin 256, Nat.lor (Nat.land x.val 63) 128 / 64 = 2 := by
  decide

/-- The bytes produced by `uuid.New` keep the input length. -/
theorem uuid_New_length (r : List Nat) : (uuid.New r).data.length = r.length := by
  simp [uuid.New]

/-! ## Claims -/

/-- C1: the claim says decoding a field whose length is not 16 fails with the
`ErrorNoUUID` sentinel and returns the zero-value UUID.  Evaluating the code
at the failing input (an empty field): the zero-value UUID is indeed
returned, but the error is google/uuid's invalid-length error, a different
error value from the `ErrorNoUUID` sentinel, which the code declares and
documents but never returns. -/
theorem C1_empty_field_error_is_library_error_not_ErrorNoUUID :
    (gormuuid.UUID.mk []).UUID = (uuid.Nil, some (GoError.invalidUUIDLength 0)) ∧
    (gormuuid.UUID.mk [0, 1, 2, 3, 4]).UUID
      = (uuid.Nil, some (GoError.invalidUUIDLength 5)) ∧
    GoError.invalidUUIDLength 0 ≠ gormuuid.ErrorNoUUID ∧
    GoError.invalidUUIDLength 5 ≠ gormuuid.ErrorNoUUID := by
  decide

/-- C3: if the field already holds 16 bytes, `BeforeCreate` returns no error
and leaves the record unchanged, whatever the random input would have been;
in particular a second invocation on a populated field is a no-op. -/
theorem C3_beforeCreate_noop_on_populated (u : gormuuid.UUID) (r : List Nat)
    (h : u.ID.length = 16) : u.BeforeCreate r = (u, none) := by
  simp [gormuuid.UUID.BeforeCreate, gormuuid.UUID.beforeCreateWith, h]

/-- C3 witness at a concrete populated record. -/
theorem C3_beforeCreate_noop_on_populated_witness :
    (gormuuid.UUID.mk (List.replicate 16 7)).ID.length = 16 ∧
    (gormuuid.UUID.mk (List.replicate 16 7)).BeforeCreate [1, 2, 3]
      = (gormuuid.UUID.mk (List.replicate 16 7), none) :=
  ⟨by decide, C3_beforeCreate_noop_on_populated _ _ (by decide)⟩

/-- C5: if the marshal step of the library reports an error, `BeforeCreate`
returns that very error and leaves the field unchanged (the generation
branch is entered only when the field does not hold 16 bytes). -/
theorem C5_library_error_propagated_field_unchanged
    (u : gormuuid.UUID) (b : List Nat) (e : GoError) (h : u.ID.length ≠ 16) :
    u.beforeCreateWith (b, some e) = (u, some e) := by
  simp [gormuuid.UUID.beforeCreateWith, h]

/-- C5 witness at a concrete empty record and a concrete library error. -/
theorem C5_library_error_propagated_field_unchanged_witness :
    (gormuuid.UUID.mk []).ID.length ≠ 16 ∧
    (gormuuid.UUID.mk []).beforeCreateWith ([9, 9], some (GoError.invalidUUIDLength 2))
      = (gormuuid.UUID.mk [], some (GoError.invalidUUIDLength 2)) :=
  ⟨by decide, C5_library_error_propagated_field_unchanged _ _ _ (by decide)⟩

/-- C7: decoding any field of exactly 16 bytes succeeds: the only error
branch of the decoder is the length check, so the 16-byte decode-error
branch is unreachable. -/
theorem C7_sixteen_byte_decode_always_succeeds (u : gormuuid.UUID)
    (h : u.ID.length = 16) : (u.UUID).2 = none := by
  simp [gormuuid.UUID.UUID, uuid.FromBytes, uuid.UUID.UnmarshalBinary, h]

/-- C7 witness at a concrete 16-byte field with arbitrary content. -/
theorem C7_sixteen_byte_decode_always_succeeds_witness :
    (gormuuid.UUID.mk (List.replicate 16 255)).ID.length = 16 ∧
    ((gormuuid.UUID.mk (List.replicate 16 255)).UUID).2 = none :=
  ⟨by decide, C7_sixteen_byte_decode_always_succeeds _ (by decide)⟩

/-- C8: the decode method leaves the receiver unchanged — threading the
receiver state through the call returns it as it was, alongside exactly the
result of the method. -/
theorem C8_decode_has_no_side_effects (u : gormuuid.UUID) :
    (u.uuidCall).2 = u ∧ (u.uuidCall).1 = u.UUID :=
  ⟨rfl, rfl⟩

/-- C9: `BeforeCreate` never returns an error, whatever the starting field
and whatever random bytes the library reads: the marshal step of google/uuid
always succeeds, so the error branch of the hook is unreachable. -/
theorem C9_beforeCreate_never_errors (u : gormuuid.UUID) (r : List Nat) :
    (u.BeforeCreate r).2 = none := by
  by_cases h : u.ID.length = 16 <;>
    simp [gormuuid.UUID.BeforeCreate, gormuuid.UUID.beforeCreateWith,
      uuid.UUID.MarshalBinary, h]

/-- C10: the decode operation is deterministic: two records whose fields
hold equal byte sequences decode to equal (value, error) pairs. -/
theorem C10_decode_deterministic (u v : gormuuid.UUID) (h : u.ID = v.ID) :
    u.UUID = v.UUID := by
  simp [gormuuid.UUID.UUID, h]

/-- C10 witness at two distinct records with equal field contents. -/
theorem C10_decode_deterministic_witness :
    (gormuuid.UUID.mk (List.replicate 16 3)).ID
      = (gormuuid.UUID.mk ((List.replicate 15 3) ++ [3])).ID ∧
    (gormuuid.UUID.mk (List.replicate 16 3)).UUID
      = (gormuuid.UUID.mk ((List.replicate 15 3) ++ [3])).UUID :=
  ⟨by decide, C10_decode_deterministic _ _ (by decide)⟩

/-- C2: on a record with an empty identifier field, one invocation of
`BeforeCreate` succeeds and leaves a field of exactly 16 bytes that decodes
without error to a UUID carrying the version-4 nibble and the RFC variant
bits (for any 16 random bytes the library reads). -/
theorem C2_beforeCreate_empty_yields_valid_v4
    (u : gormuuid.UUID) (r : List Nat)
    (hu : u.ID = []) (hr : r.length = 16) (hb : ∀ b ∈ r, b < 256) :
    (u.BeforeCreate r).2 = none ∧
    (u.BeforeCreate r).1.ID.length = 16 ∧
    ((u.BeforeCreate r).1.UUID).2 = none ∧
    uuid.UUID.isV4Variant ((u.BeforeCreate r).1.UUID).1 := by
  have hbc : u.BeforeCreate r = (⟨(uuid.New r).data⟩, none) := by
    simp [gormuuid.UUID.BeforeCreate, gormuuid.UUID.beforeCreateWith,
      uuid.UUID.MarshalBinary, hu]
  have hlen : (uuid.New r).data.length = 16 := by rw [uuid_New_length, hr]
  have hdec : (gormuuid.UUID.mk (uuid.New r).data).UUID = (uuid.New r, none) := by
    simp [gormuuid.UUID.UUID, uuid.FromBytes, uuid.UUID.UnmarshalBinary, hlen]
  have h6v : (uuid.New r).data.getD 6 0 = Nat.lor (Nat.land (r.getD 6 0) 15) 64 := by
    simp [uuid.New, hr]
  have h8v : (uuid.New r).data.getD 8 0 = Nat.lor (Nat.land (r.getD 8 0) 63) 128 := by
    simp [uuid.New, hr]
  have h6lt : 6 < r.length := by rw [hr]; decide
  have h8lt : 8 < r.length := by rw [hr]; decide
  have hm6 : r.getD 6 0 < 256 := by
    rw [List.getD_eq_getElem?_getD, List.getElem?_eq_getElem h6lt]
    exact hb _ (List.getElem_mem h6lt)
  have hm8 : r.getD 8 0 < 256 := by
    rw [List.getD_eq_getElem?_getD, List.getElem?_eq_getElem h8lt]
    exact hb _ (List.getElem_mem h8lt)
  have hver : (uuid.New r).data.getD 6 0 / 16 = 4 := by
    rw [h6v]; exact version_nibble_of_byte ⟨r.getD 6 0, hm6⟩
  have hvar : (uuid.New r).data.getD 8 0 / 64 = 2 := by
    rw [h8v]; exact variant_bits_of_byte ⟨r.getD 8 0, hm8⟩
  refine ⟨by rw [hbc], by rw [hbc]; exact hlen, ?_, ?_⟩
  · rw [hbc]
    show ((gormuuid.UUID.mk (uuid.New r).data).UUID).2 = none
    rw [hdec]
  · rw [hbc]
    show uuid.UUID.isV4Variant ((gormuuid.UUID.mk (uuid.New r).data).UUID).1
    rw [hdec]
    exact ⟨hlen, hver, hvar⟩

/-- C2 witness at a concrete empty record and concrete random bytes. -/
theorem C2_beforeCreate_empty_yields_valid_v4_witness :
    ((gormuuid.UUID.mk []).ID = [] ∧ (List.replicate 16 0).length = 16 ∧
      ∀ b ∈ List.replicate 16 0, b < 256) ∧
    ((gormuuid.UUID.mk []).BeforeCreate (List.replicate 16 0)).2 = none ∧
    ((gormuuid.UUID.mk []).BeforeCreate (List.replicate 16 0)).1.ID.length = 16 ∧
    (((gormuuid.UUID.mk []).BeforeCreate (List.replicate 16 0)).1.UUID).2 = none ∧
    uuid.UUID.isV4Variant
      (((gormuuid.UUID.mk []).BeforeCreate (List.replicate 16 0)).1.UUID).1 :=
  ⟨⟨rfl, by decide, by decide⟩,
    C2_beforeCreate_empty_yields_valid_v4 _ _ rfl (by decide) (by decide)⟩

/-- C4: round-trip: marshalling any structured UUID and decoding a field
holding those bytes returns the same structured value with no error; in
general a field holding any 16-byte sequence `B` decodes without error to
the UUID whose bytes are exactly `B` (so every textual rendering of the
decoded value is the rendering of `B`). -/
theorem C4_marshal_store_decode_roundtrip (g : uuid.UUID) (B : List Nat)
    (hg : g.data.length = 16) (hB : B.length = 16) :
    uuid.FromBytes (g.MarshalBinary).1 = (g, none) ∧
    (gormuuid.UUID.mk (g.MarshalBinary).1).UUID = (g, none) ∧
    (gormuuid.UUID.mk B).UUID = (uuid.UUID.mk B, none) := by
  refine ⟨?_, ?_, ?_⟩ <;>
    simp [gormuuid.UUID.UUID, uuid.FromBytes, uuid.UUID.MarshalBinary,
      uuid.UUID.UnmarshalBinary, hg, hB]

/-- C4 witness at a concrete UUID value and a concrete byte sequence. -/
theorem C4_marshal_store_decode_roundtrip_witness :
    ((uuid.UUID.mk (List.replicate 16 171)).data.length = 16 ∧
      (List.replicate 16 205).length = 16) ∧
    uuid.FromBytes ((uuid.UUID.mk (List.replicate 16 171)).MarshalBinary).1
      = (uuid.UUID.mk (List.replicate 16 171), none) ∧
    (gormuuid.UUID.mk
        ((uuid.UUID.mk (List.replicate 16 171)).MarshalBinary).1).UUID
      = (uuid.UUID.mk (List.replicate 16 171), none) ∧
    (gormuuid.UUID.mk (List.replicate 16 205)).UUID
      = (uuid.UUID.mk (List.replicate 16 205), none) :=
  ⟨⟨by decide, by decide⟩,
    C4_marshal_store_decode_roundtrip _ _ (by decide) (by decide)⟩

/-- C6: a caller-supplied value of 16 zero bytes is respected without any
version or variant validation: `BeforeCreate` leaves it unchanged whatever
random bytes were available, and `UUID()` succeeds, returning the nil UUID,
whose canonical string is `00000000-0000-0000-0000-000000000000`. -/
theorem C6_sixteen_zero_bytes_respected_decode_nil (r : List Nat) :
    (gormuuid.UUID.mk (List.replicate 16 0)).BeforeCreate r
      = (gormuuid.UUID.mk (List.replicate 16 0), none) ∧
    (gormuuid.UUID.mk (List.replicate 16 0)).UUID = (uuid.Nil, none) ∧
    uuid.Nil.String = "00000000-0000-0000-0000-000000000000" := by
  refine ⟨?_, by decide, by decide⟩
  simp [gormuuid.UUID.BeforeCreate, gormuuid.UUID.beforeCreateWith]
